import Mathlib

/-!
Verification development for the shared client-side script
(`assets/js/shared-scripts.js`) of the AthenaQuant/athenaacademy course
site.  The quiz scoring state machine, the completion-celebration logic,
the four financial calculator formulas, the numeric-input validator and
the debounce utility are embedded shallowly.

JavaScript numbers are modelled by `JSNum`: an exact rational together
with the three IEEE special values `+Infinity`, `-Infinity` and `NaN`.
Rounding of binary floating point is not modelled (all arithmetic the
claims touch is exact in decimal), but propagation of the special values
through `+ - * /` and through comparisons follows IEEE-754 / JavaScript:
any comparison involving NaN is false, and finite/0 is a signed infinity
(or NaN for 0/0).
-/

/-- Model of a JavaScript number: an exact rational, or one of the IEEE
special values. -/
inductive JSNum where
  | finite (q : ℚ)
  | posInf
  | negInf
  | nan
deriving DecidableEq, Repr

/-- JavaScript `isNaN` on a number. -/
def JSNum.isNaN : JSNum → Bool
  | JSNum.nan => true
  | _ => false

/-- JavaScript addition. -/
def JSNum.add : JSNum → JSNum → JSNum
  | JSNum.nan, _ => JSNum.nan
  | _, JSNum.nan => JSNum.nan
  | JSNum.finite a, JSNum.finite b => JSNum.finite (a + b)
  | JSNum.finite _, JSNum.posInf => JSNum.posInf
  | JSNum.finite _, JSNum.negInf => JSNum.negInf
  | JSNum.posInf, JSNum.finite _ => JSNum.posInf
  | JSNum.negInf, JSNum.finite _ => JSNum.negInf
  | JSNum.posInf, JSNum.posInf => JSNum.posInf
  | JSNum.posInf, JSNum.negInf => JSNum.nan
  | JSNum.negInf, JSNum.posInf => JSNum.nan
  | JSNum.negInf, JSNum.negInf => JSNum.negInf

/-- JavaScript subtraction. -/
def JSNum.sub : JSNum → JSNum → JSNum
  | JSNum.nan, _ => JSNum.nan
  | _, JSNum.nan => JSNum.nan
  | JSNum.finite a, JSNum.finite b => JSNum.finite (a - b)
  | JSNum.finite _, JSNum.posInf => JSNum.negInf
  | JSNum.finite _, JSNum.negInf => JSNum.posInf
  | JSNum.posInf, JSNum.finite _ => JSNum.posInf
  | JSNum.negInf, JSNum.finite _ => JSNum.negInf
  | JSNum.posInf, JSNum.posInf => JSNum.nan
  | JSNum.posInf, JSNum.negInf => JSNum.posInf
  | JSNum.negInf, JSNum.posInf => JSNum.negInf
  | JSNum.negInf, JSNum.negInf => JSNum.nan

/-- JavaScript multiplication (0 × ∞ = NaN). -/
def JSNum.mul : JSNum → JSNum → JSNum
  | JSNum.nan, _ => JSNum.nan
  | _, JSNum.nan => JSNum.nan
  | JSNum.finite a, JSNum.finite b => JSNum.finite (a * b)
  | JSNum.finite a, JSNum.posInf =>
      if 0 < a then JSNum.posInf else if a < 0 then JSNum.negInf else JSNum.nan
  | JSNum.finite a, JSNum.negInf =>
      if 0 < a then JSNum.negInf else if a < 0 then JSNum.posInf else JSNum.nan
  | JSNum.posInf, JSNum.finite a =>
      if 0 < a then JSNum.posInf else if a < 0 then JSNum.negInf else JSNum.nan
  | JSNum.negInf, JSNum.finite a =>
      if 0 < a then JSNum.negInf else if a < 0 then JSNum.posInf else JSNum.nan
  | JSNum.posInf, JSNum.posInf => JSNum.posInf
  | JSNum.posInf, JSNum.negInf => JSNum.negInf
  | JSNum.negInf, JSNum.posInf => JSNum.negInf
  | JSNum.negInf, JSNum.negInf => JSNum.posInf

/-- JavaScript division.  Finite x / 0 is +∞ for x > 0, -∞ for x < 0 and
NaN for 0/0 (the negative-zero denominator is not modelled). -/
def JSNum.div : JSNum → JSNum → JSNum
  | JSNum.nan, _ => JSNum.nan
  | _, JSNum.nan => JSNum.nan
  | JSNum.finite a, JSNum.finite b =>
      if b = 0 then
        if 0 < a then JSNum.posInf else if a < 0 then JSNum.negInf else JSNum.nan
      else JSNum.finite (a / b)
  | JSNum.finite _, JSNum.posInf => JSNum.finite 0
  | JSNum.finite _, JSNum.negInf => JSNum.finite 0
  | JSNum.posInf, JSNum.finite b => if b < 0 then JSNum.negInf else JSNum.posInf
  | JSNum.negInf, JSNum.finite b => if b < 0 then JSNum.posInf else JSNum.negInf
  | JSNum.posInf, JSNum.posInf => JSNum.nan
  | JSNum.posInf, JSNum.negInf => JSNum.nan
  | JSNum.negInf, JSNum.posInf => JSNum.nan
  | JSNum.negInf, JSNum.negInf => JSNum.nan

/-- JavaScript strict-less-than: any comparison with NaN is false. -/
def JSNum.lt : JSNum → JSNum → Bool
  | JSNum.nan, _ => false
  | _, JSNum.nan => false
  | JSNum.finite a, JSNum.finite b => decide (a < b)
  | JSNum.finite _, JSNum.posInf => true
  | JSNum.finite _, JSNum.negInf => false
  | JSNum.posInf, _ => false
  | JSNum.negInf, JSNum.negInf => false
  | JSNum.negInf, _ => true

/-- JavaScript less-or-equal: any comparison with NaN is false. -/
def JSNum.le : JSNum → JSNum → Bool
  | JSNum.nan, _ => false
  | _, JSNum.nan => false
  | JSNum.finite a, JSNum.finite b => decide (a ≤ b)
  | JSNum.finite _, JSNum.posInf => true
  | JSNum.finite _, JSNum.negInf => false
  | JSNum.posInf, JSNum.posInf => true
  | JSNum.posInf, _ => false
  | JSNum.negInf, _ => true

/-- JavaScript `x >= y` (false whenever either side is NaN). -/
def JSNum.ge (x y : JSNum) : Bool := JSNum.le y x

/-- Natural-power iteration of `JSNum.mul`, modelling `Math.pow` with a
natural exponent (`Math.pow(x, 0)` is 1 even for NaN). -/
def JSNum.npow (x : JSNum) : ℕ → JSNum
  | 0 => JSNum.finite 1
  | n + 1 => x.mul (x.npow n)

/-- Insert a thousands separator every three digits, working on the
reversed digit list. -/
def groupRevAux : List Char → List Char
  | a :: b :: c :: d :: rest => a :: b :: c :: ',' :: groupRevAux (d :: rest)
  | l => l

/-- Group the digits of an integer-part string with `en-US` thousands
separators ("1210" becomes "1,210"). -/
def groupThousands (s : String) : String :=
  ((groupRevAux s.toList.reverse).reverse).asString

/-- Pad a digit string on the left with zeros up to the given width. -/
def padLeftZeros (s : String) (width : ℕ) : String :=
  (List.replicate (width - s.length) '0').asString ++ s

/-- Model of `Number.prototype.toLocaleString('en-US')` with fixed
fraction digits: round to `decimals` places (half away from zero; the
host's exact tie-breaking is not modelled and no claim depends on it),
group the integer part with commas. -/
def ratToLocaleString (q : ℚ) (decimals : ℕ) : String :=
  let a : ℚ := |q|
  let scaled : ℕ := (⌊a * (10 : ℚ) ^ decimals + 1 / 2⌋).toNat
  let ipStr := groupThousands (Nat.repr (scaled / 10 ^ decimals))
  let fpStr := padLeftZeros (Nat.repr (scaled % 10 ^ decimals)) decimals
  (if q < 0 then "-" else "") ++ ipStr ++
    (if decimals = 0 then "" else "." ++ fpStr)

/-- Embeds `formatNumber(num, decimals)`: "0.00" for NaN, otherwise the
locale-formatted number with the given fraction digits. -/
def formatNumber (num : JSNum) (decimals : ℕ) : String :=
  match num with
  | JSNum.nan => "0.00"
  | JSNum.finite q => ratToLocaleString q decimals
  | JSNum.posInf => "∞"
  | JSNum.negInf => "-∞"

/-- Embeds `formatPercentage(num, decimals)`: "0.00%" for NaN, otherwise
`formatNumber` plus a trailing percent sign. -/
def formatPercentage (num : JSNum) (decimals : ℕ) : String :=
  if num.isNaN then "0.00%" else formatNumber num decimals ++ "%"

/-- Embeds `formatCurrency(num)` (default USD): "$0.00" for NaN,
otherwise `en-US` currency style with two fraction digits. -/
def formatCurrency (num : JSNum) : String :=
  match num with
  | JSNum.nan => "$0.00"
  | JSNum.finite q =>
      if q < 0 then "-$" ++ ratToLocaleString (-q) 2
      else "$" ++ ratToLocaleString q 2
  | JSNum.posInf => "$∞"
  | JSNum.negInf => "-$∞"

/-- Result object of `calculateROI`. -/
structure ROIResult where
  value : JSNum
  formatted : String
  profit : String
  isPositive : Bool
deriving DecidableEq, Repr

/-- Embeds `calculateROI(initial, final)`:
profit = final - initial, roiPercent = (profit / initial) * 100. -/
def calculateROI (initial finalValue : JSNum) : ROIResult :=
  let profit := finalValue.sub initial
  let roiPercent := (profit.div initial).mul (JSNum.finite 100)
  { value := roiPercent
    formatted := formatPercentage roiPercent 2
    profit := formatCurrency profit
    isPositive := roiPercent.ge (JSNum.finite 0) }

/-- Band interpretation of a Sharpe ratio, embedding
`getSharpeInterpretation`. -/
def getSharpeInterpretation (sharpe : JSNum) : String :=
  if sharpe.lt (JSNum.finite 0) then "Poor - Returns below risk-free rate"
  else if sharpe.lt (JSNum.finite 1) then "Acceptable - Moderate risk-adjusted returns"
  else if sharpe.lt (JSNum.finite 2) then "Good - Strong risk-adjusted returns"
  else if sharpe.lt (JSNum.finite 3) then "Very Good - Excellent risk-adjusted returns"
  else "Exceptional - Outstanding risk-adjusted returns"

/-- Result object of `calculateSharpeRatio`. -/
structure SharpeResult where
  value : JSNum
  formatted : String
  isPositive : Bool
  interpretation : String
deriving DecidableEq, Repr

/-- Embeds `calculateSharpeRatio(returns, riskFree, stdDev)`:
sharpe = (returns - riskFree) / stdDev. -/
def calculateSharpeRatio (returns riskFree stdDev : JSNum) : SharpeResult :=
  let sharpe := (returns.sub riskFree).div stdDev
  { value := sharpe
    formatted := formatNumber sharpe 3
    isPositive := sharpe.ge (JSNum.finite 0)
    interpretation := getSharpeInterpretation sharpe }

/-- Result object of `calculateCompoundGrowth`. -/
structure CompoundResult where
  value : JSNum
  formatted : String
  gain : String
  isPositive : Bool
deriving DecidableEq, Repr

/-- Embeds `calculateCompoundGrowth(principal, rate, time)` with a
natural-number time: finalAmount = principal * (1 + rate / 100) ^ time,
totalGain = finalAmount - principal. -/
def calculateCompoundGrowth (principal rate : JSNum) (time : ℕ) : CompoundResult :=
  let finalAmount :=
    principal.mul (((JSNum.finite 1).add (rate.div (JSNum.finite 100))).npow time)
  let totalGain := finalAmount.sub principal
  { value := finalAmount
    formatted := formatCurrency finalAmount
    gain := formatCurrency totalGain
    isPositive := totalGain.ge (JSNum.finite 0) }

/-- The z-score table lookup of `calculateVaR`: the object
`{90: 1.28, 95: 1.645, 99: 2.33}` indexed by the confidence level, with
`|| 1.645` supplying the default (none of the table values is falsy, so
the `||` only catches a missed lookup). -/
def varZScore (confidence : JSNum) : ℚ :=
  if confidence = JSNum.finite 90 then 1.28
  else if confidence = JSNum.finite 95 then 1.645
  else if confidence = JSNum.finite 99 then 2.33
  else 1.645

/-- Result object of `calculateVaR`. -/
structure VaRResult where
  value : JSNum
  formatted : String
  percentage : String
  isPositive : Bool
deriving DecidableEq, Repr

/-- Embeds `calculateVaR(value, confidence, volatility)`:
var95 = value * volatility * zScore; the sign flag is the literal
`false` ("VaR is always shown as a potential loss"). -/
def calculateVaR (value confidence volatility : JSNum) : VaRResult :=
  let var95 := (value.mul volatility).mul (JSNum.finite (varZScore confidence))
  { value := var95
    formatted := formatCurrency var95
    percentage := formatPercentage ((var95.div value).mul (JSNum.finite 100)) 2
    isPositive := false }

/-- Per-quiz score record held in `AppState.quizScores`: total questions
answered, correct count, and the set of question identifiers already
counted (the JavaScript `Set` is modelled as a list with membership). -/
structure ScoreData where
  total : ℕ
  correct : ℕ
  answered : List String
deriving DecidableEq, Repr

/-- The record `initializeQuizzes` installs for a fresh quiz:
`{total: 0, correct: 0, answered: new Set()}`. -/
def initialScoreData : ScoreData := { total := 0, correct := 0, answered := [] }

/-- Embeds the score mutation of `updateQuizScore(quizId, questionId,
isCorrect)`: only count each question once — if the question identifier
is not yet in the answered set, increment total (and correct when the
answer is right) and add it.  The score-label refresh and the completion
check it then performs are modelled separately by
`checkQuizCompletion`. -/
def updateQuizScore (questionId : String) (isCorrect : Bool) (scoreData : ScoreData) : ScoreData :=
  if questionId ∈ scoreData.answered then scoreData
  else
    { total := scoreData.total + 1
      correct := scoreData.correct + (if isCorrect then 1 else 0)
      answered := questionId :: scoreData.answered }

/-- Fold a sequence of grading events (question identifier, correctness)
through `updateQuizScore`. -/
def runQuizEvents (scoreData : ScoreData) (events : List (String × Bool)) : ScoreData :=
  events.foldl (fun s e => updateQuizScore e.1 e.2 s) scoreData

/-- The quiz container DOM state the completion logic observes:
`gradableCount` is the size of the query
`.quiz-option[data-correct], .quiz-input[data-correct-answer]`, and
`celebrationCount` is the number of `.quiz-celebration` children. -/
structure QuizContainer where
  gradableCount : ℕ
  celebrationCount : ℕ
deriving DecidableEq, Repr

/-- Embeds `showCelebration(quizContainer)`: remove the first existing
`.quiz-celebration` element, if any, then append a fresh one. -/
def showCelebration (quiz : QuizContainer) : QuizContainer :=
  { quiz with celebrationCount := (quiz.celebrationCount - 1) + 1 }

/-- Embeds `checkQuizCompletion(quizId)` for a quiz container that the
document lookup finds: when the correct count equals the number of
gradable elements and is positive, show the celebration. -/
def checkQuizCompletion (scoreData : ScoreData) (quiz : QuizContainer) : QuizContainer :=
  if scoreData.correct = quiz.gradableCount ∧ 0 < scoreData.correct then
    showCelebration quiz
  else quiz

/-- Model of JavaScript `String.prototype.trim`: strip whitespace from
both ends. -/
def jsTrim (s : String) : String :=
  (((s.toList.dropWhile Char.isWhitespace).reverse.dropWhile Char.isWhitespace).reverse).asString

/-- Model of JavaScript `String.prototype.toLowerCase` (ASCII range;
the claims only exercise ASCII answers). -/
def jsToLowerCase (s : String) : String :=
  (s.toList.map Char.toLower).asString

/-- The `.quiz-input` element consumed by `handleQuizSubmit`: its typed
value, the optional `data-correct-answer` attribute, and the optional
`data-question-id` attribute. -/
structure QuizTextInput where
  value : String
  correctAnswer : Option String
  questionId : Option String
deriving DecidableEq, Repr

/-- Observable outcome of a submit: the updated score record and, when
the handler did not return early, the `isCorrect` flag passed to
`showQuizFeedback`. -/
structure SubmitOutcome where
  score : ScoreData
  feedback : Option Bool
deriving DecidableEq, Repr

/-- Embeds `handleQuizSubmit(quizContainer)`: no-op when the input is
missing or the configured answer is missing or empty (the falsy guard
`if (!input || !correctAnswer) return`); otherwise grade by comparing
the trimmed, lower-cased user value with the lower-cased (but NOT
trimmed) expected value, then update the score under the question
identifier (default "input-question"). -/
def handleQuizSubmit (input : Option QuizTextInput) (scoreData : ScoreData) : SubmitOutcome :=
  match input with
  | none => { score := scoreData, feedback := none }
  | some inp =>
    match inp.correctAnswer with
    | none => { score := scoreData, feedback := none }
    | some correctAnswer =>
      if correctAnswer.isEmpty then { score := scoreData, feedback := none }
      else
        let userAnswer := jsToLowerCase (jsTrim inp.value)
        let isCorrect := userAnswer == jsToLowerCase correctAnswer
        let questionId := inp.questionId.getD "input-question"
        { score := updateQuizScore questionId isCorrect scoreData
          feedback := some isCorrect }

/-- Failure reason of `validateNumericInput`, one constructor per
human-readable error string of the source, carrying the bound the
message interpolates where there is one. -/
inductive ValidationError where
  | notANumber
  | negativeNotAllowed
  | notInteger
  | belowMin (min : JSNum)
  | aboveMax (max : JSNum)
deriving DecidableEq, Repr

/-- Result of `validateNumericInput`: `{valid: false, error}` or
`{valid: true, value}`. -/
inductive ValidationResult where
  | invalid (error : ValidationError)
  | valid (value : JSNum)
deriving DecidableEq, Repr

/-- Options record of `validateNumericInput` with the source defaults
`min = -Infinity`, `max = Infinity`, `allowNegative = true`,
`allowDecimal = true`. -/
structure ValidationOptions where
  min : JSNum
  max : JSNum
  allowNegative : Bool
  allowDecimal : Bool
deriving DecidableEq, Repr

/-- The defaulted (empty) options record. -/
def defaultValidationOptions : ValidationOptions :=
  { min := JSNum.negInf, max := JSNum.posInf, allowNegative := true, allowDecimal := true }

/-- JavaScript `Number.isInteger` (false on the special values). -/
def jsIsInteger : JSNum → Bool
  | JSNum.finite q => decide (q.den = 1)
  | _ => false

/-- Numeric value of a digit character. -/
def digitVal (c : Char) : ℕ := c.toNat - 48

/-- Decimal value of a digit list (most significant first). -/
def natOfDigits (ds : List Char) : ℕ :=
  ds.foldl (fun n c => 10 * n + digitVal c) 0

/-- Model of JavaScript `parseFloat`: skip leading whitespace, read an
optional sign, then either the literal "Infinity" or a decimal mantissa
with optional fraction and optional exponent, ignoring any trailing
garbage; NaN when no digits can be consumed. -/
def jsParseFloat (s : String) : JSNum :=
  let cs := s.toList.dropWhile Char.isWhitespace
  let signed : Bool × List Char :=
    match cs with
    | '-' :: rest => (true, rest)
    | '+' :: rest => (false, rest)
    | _ => (false, cs)
  let neg := signed.1
  let cs := signed.2
  if "Infinity".toList.isPrefixOf cs then
    if neg then JSNum.negInf else JSNum.posInf
  else
    let intDigits := cs.takeWhile Char.isDigit
    let rest0 := cs.dropWhile Char.isDigit
    let fracSplit : List Char × List Char :=
      match rest0 with
      | '.' :: r => (r.takeWhile Char.isDigit, r.dropWhile Char.isDigit)
      | _ => ([], rest0)
    let fracDigits := fracSplit.1
    let rest1 := fracSplit.2
    if intDigits.isEmpty ∧ fracDigits.isEmpty then JSNum.nan
    else
      let mantissa : ℚ :=
        (natOfDigits (intDigits ++ fracDigits) : ℚ) / (10 : ℚ) ^ fracDigits.length
      let mantissa := if neg then -mantissa else mantissa
      let expVal : Option ℤ :=
        match rest1 with
        | 'e' :: r =>
            match r with
            | '-' :: r2 =>
                let eds := r2.takeWhile Char.isDigit
                if eds.isEmpty then none else some (-(natOfDigits eds : ℤ))
            | '+' :: r2 =>
                let eds := r2.takeWhile Char.isDigit
                if eds.isEmpty then none else some (natOfDigits eds : ℤ)
            | _ =>
                let eds := r.takeWhile Char.isDigit
                if eds.isEmpty then none else some (natOfDigits eds : ℤ)
        | 'E' :: r =>
            match r with
            | '-' :: r2 =>
                let eds := r2.takeWhile Char.isDigit
                if eds.isEmpty then none else some (-(natOfDigits eds : ℤ))
            | '+' :: r2 =>
                let eds := r2.takeWhile Char.isDigit
                if eds.isEmpty then none else some (natOfDigits eds : ℤ)
            | _ =>
                let eds := r.takeWhile Char.isDigit
                if eds.isEmpty then none else some (natOfDigits eds : ℤ)
        | _ => none
      match expVal with
      | some e => JSNum.finite (mantissa * (10 : ℚ) ^ e)
      | none => JSNum.finite mantissa

/-- The check chain of `validateNumericInput` applied to the already
parsed number, in source order: not-a-number, negative disallowed,
non-integer disallowed, below minimum, above maximum, else valid. -/
def validateParsed (num : JSNum) (options : ValidationOptions) : ValidationResult :=
  if num.isNaN then ValidationResult.invalid ValidationError.notANumber
  else if options.allowNegative = false ∧ num.lt (JSNum.finite 0) then
    ValidationResult.invalid ValidationError.negativeNotAllowed
  else if options.allowDecimal = false ∧ jsIsInteger num = false then
    ValidationResult.invalid ValidationError.notInteger
  else if num.lt options.min then
    ValidationResult.invalid (ValidationError.belowMin options.min)
  else if options.max.lt num then
    ValidationResult.invalid (ValidationError.aboveMax options.max)
  else ValidationResult.valid num

/-- Embeds `validateNumericInput(value, options)`:
`parseFloat` the string, then run the check chain. -/
def validateNumericInput (value : String) (options : ValidationOptions) : ValidationResult :=
  validateParsed (jsParseFloat value) options

/-- One step of the debounced wrapper's event-loop simulation.  The
state is the pending timer `(fire time, captured arguments)`, if any.
Before an invocation at time `t` is processed, a pending timer whose
fire time has passed (`fireTime ≤ t`) has already fired and produced an
underlying call; the invocation then clears any pending timer and
schedules a fresh one at `t + wait` capturing the new arguments. -/
def debounceStep {α : Type} (wait : ℕ) (acc : List α × Option (ℕ × α)) (ev : ℕ × α) :
    List α × Option (ℕ × α) :=
  let fired : List α :=
    match acc.2 with
    | some p => if p.1 ≤ ev.1 then acc.1 ++ [p.2] else acc.1
    | none => acc.1
  (fired, some (ev.1 + wait, ev.2))

/-- Embeds `debounce(func, wait)` run against a finite timeline of
wrapper invocations `(time, arguments)`: returns the argument lists with
which the underlying `func` is called, in order.  After the last
invocation the remaining pending timer fires. -/
def debounceRun {α : Type} (wait : ℕ) (events : List (ℕ × α)) : List α :=
  let finalAcc := events.foldl (debounceStep wait) ([], none)
  match finalAcc.2 with
  | some p => finalAcc.1 ++ [p.2]
  | none => finalAcc.1

/-- The pending timer left after a run of invocations starting from the
pending timer `p`: the last event's fire time and arguments, or `p`
itself when there are no events. -/
def debounceFinal {α : Type} (wait : ℕ) (p : ℕ × α) (events : List (ℕ × α)) : ℕ × α :=
  match events.getLast? with
  | some e => (e.1 + wait, e.2)
  | none => p

/-- Helper for stating the C1 embedding: one `updateQuizScore` step
keeps the correct count below the total. -/
theorem updateQuizScore_correct_le_total (questionId : String) (isCorrect : Bool)
    (s : ScoreData) (h : s.correct ≤ s.total) :
    (updateQuizScore questionId isCorrect s).correct ≤
      (updateQuizScore questionId isCorrect s).total := by
  unfold updateQuizScore
  split
  · exact h
  · cases isCorrect <;> simp <;> omega

/-- Folding any event list through `updateQuizScore` preserves
`correct ≤ total`. -/
theorem runQuizEvents_correct_le_total (events : List (String × Bool)) :
    ∀ s : ScoreData, s.correct ≤ s.total →
      (runQuizEvents s events).correct ≤ (runQuizEvents s events).total := by
  induction events with
  | nil => intro s h; simpa [runQuizEvents] using h
  | cons e rest ih =>
      intro s h
      have h1 := updateQuizScore_correct_le_total e.1 e.2 s h
      simpa [runQuizEvents, List.foldl_cons] using ih (updateQuizScore e.1 e.2 s) h1

/-- After an update for a question identifier, that identifier is in
the answered set. -/
theorem mem_answered_updateQuizScore (questionId : String) (isCorrect : Bool)
    (s : ScoreData) : questionId ∈ (updateQuizScore questionId isCorrect s).answered := by
  unfold updateQuizScore
  split
  · assumption
  · simp

/-- An update for an already-answered question identifier is a no-op. -/
theorem updateQuizScore_of_mem (questionId : String) (isCorrect : Bool)
    (s : ScoreData) (h : questionId ∈ s.answered) :
    updateQuizScore questionId isCorrect s = s := by
  unfold updateQuizScore
  simp [h]

/-- A run of events all for an already-answered question identifier is
a no-op. -/
theorem runQuizEvents_of_mem (events : List (String × Bool)) (qid : String) :
    ∀ s : ScoreData, (∀ e ∈ events, e.1 = qid) → qid ∈ s.answered →
      runQuizEvents s events = s := by
  induction events with
  | nil => intro s _ _; rfl
  | cons e rest ih =>
      intro s hall hmem
      have he : e.1 = qid := hall e (List.mem_cons_self e rest)
      have hstep : updateQuizScore e.1 e.2 s = s :=
        updateQuizScore_of_mem e.1 e.2 s (he ▸ hmem)
      have hrest : runQuizEvents s rest = s :=
        ih s (fun x hx => hall x (List.mem_cons_of_mem e hx)) hmem
      calc runQuizEvents s (e :: rest)
          = runQuizEvents (updateQuizScore e.1 e.2 s) rest := by
            simp [runQuizEvents, List.foldl_cons]
        _ = runQuizEvents s rest := by rw [hstep]
        _ = s := hrest

/-- A run of events all for one question identifier increments the
counters at most once. -/
theorem runQuizEvents_same_qid (events : List (String × Bool)) (qid : String)
    (s : ScoreData) (hall : ∀ e ∈ events, e.1 = qid) :
    (runQuizEvents s events).total ≤ s.total + 1 ∧
      (runQuizEvents s events).correct ≤ s.correct + 1 := by
  cases events with
  | nil => constructor <;> simp [runQuizEvents]
  | cons e rest =>
      have he : e.1 = qid := hall e (List.mem_cons_self e rest)
      have hmem : qid ∈ (updateQuizScore e.1 e.2 s).answered :=
        he ▸ mem_answered_updateQuizScore e.1 e.2 s
      have hrest : runQuizEvents (updateQuizScore e.1 e.2 s) rest =
          updateQuizScore e.1 e.2 s :=
        runQuizEvents_of_mem rest qid (updateQuizScore e.1 e.2 s)
          (fun x hx => hall x (List.mem_cons_of_mem e hx)) hmem
      have hrun : runQuizEvents s (e :: rest) = updateQuizScore e.1 e.2 s := by
        calc runQuizEvents s (e :: rest)
            = runQuizEvents (updateQuizScore e.1 e.2 s) rest := by
              simp [runQuizEvents, List.foldl_cons]
          _ = updateQuizScore e.1 e.2 s := hrest
      rw [hrun]
      unfold updateQuizScore
      split
      · constructor <;> omega
      · cases e.2 <;> simp

/-- Claim C1: for every score record maintained by `updateQuizScore`,
`correct ≤ total` holds after any sequence of grading events, and any
number of repeated grading events for one question identifier
increments the total and correct counters at most once (membership in
the answered set is checked before incrementing). -/
theorem claimC1_quiz_score_invariant (s : ScoreData) (events : List (String × Bool))
    (hs : s.correct ≤ s.total) :
    (runQuizEvents s events).correct ≤ (runQuizEvents s events).total ∧
    ∀ qid : String, (∀ e ∈ events, e.1 = qid) →
      (runQuizEvents s events).total ≤ s.total + 1 ∧
        (runQuizEvents s events).correct ≤ s.correct + 1 := by
  refine ⟨runQuizEvents_correct_le_total events s hs, ?_⟩
  intro qid hall
  exact runQuizEvents_same_qid events qid s hall

/-- Witness for C1: three repeated events on one question starting from
the fresh record increment the total only once. -/
theorem claimC1_witness :
    (runQuizEvents initialScoreData [("q1", true), ("q1", false), ("q1", true)]).total ≤
      initialScoreData.total + 1 :=
  ((claimC1_quiz_score_invariant initialScoreData
      [("q1", true), ("q1", false), ("q1", true)] (by decide)).2 "q1" (by decide)).1

/-- Claim C2 (counterexample): the code lower-cases but does not trim
the expected answer, so with expected answer " Paris " the submission
"paris" — which is exactly the trimmed, lower-cased form of the
expected value — is graded incorrect, not correct as the claim
states. -/
theorem claimC2_counterexample :
    jsToLowerCase (jsTrim " Paris ") = "paris" ∧
    (handleQuizSubmit
        (some { value := "paris", correctAnswer := some " Paris ", questionId := none })
        initialScoreData).feedback = some false ∧
    (handleQuizSubmit
        (some { value := "paris", correctAnswer := some " Paris ", questionId := none })
        initialScoreData).score.correct = 0 := by
  refine ⟨by decide, by decide, by decide⟩

/-- Claim C2 (amended): grading compares the trimmed, lower-cased
submitted value against the lower-cased but UNTRIMMED expected value;
the feedback flag and the correct-count increment both follow that
comparison, so an expected answer with surrounding whitespace does not
match its trimmed, lower-cased form. -/
theorem claimC2_amended (v e : String) (h : e.isEmpty = false) :
    (handleQuizSubmit
        (some { value := v, correctAnswer := some e, questionId := none })
        initialScoreData).feedback =
      some (jsToLowerCase (jsTrim v) == jsToLowerCase e) ∧
    (handleQuizSubmit
        (some { value := v, correctAnswer := some e, questionId := none })
        initialScoreData).score.correct =
      (if jsToLowerCase (jsTrim v) == jsToLowerCase e then 1 else 0) := by
  unfold handleQuizSubmit
  simp only [h]
  refine ⟨by simp, ?_⟩
  simp [updateQuizScore, initialScoreData]

/-- Witness for C2 (amended) at a concrete matching submission. -/
theorem claimC2_witness :
    (handleQuizSubmit
        (some { value := " Blue ", correctAnswer := some "blue", questionId := none })
        initialScoreData).feedback = some true := by
  have h := (claimC2_amended " Blue " "blue" (by decide)).1
  rw [h]
  decide

/-- Claim C3: the celebration is rendered (a celebration panel appears)
if and only if the record's correct count equals the quiz's gradable
element count and that count is positive; rendering removes any prior
panel before appending, so repeated triggers keep at most one panel. -/
theorem claimC3_completion_celebration (s : ScoreData) (quiz : QuizContainer) :
    (quiz.celebrationCount = 0 →
      (0 < (checkQuizCompletion s quiz).celebrationCount ↔
        (s.correct = quiz.gradableCount ∧ 0 < s.correct))) ∧
    (quiz.celebrationCount ≤ 1 → (showCelebration quiz).celebrationCount = 1) ∧
    (showCelebration (showCelebration quiz)).celebrationCount =
      (showCelebration quiz).celebrationCount ∧
    (quiz.celebrationCount ≤ 1 → (checkQuizCompletion s quiz).celebrationCount ≤ 1) := by
  unfold checkQuizCompletion showCelebration
  refine ⟨?_, ?_, ?_, ?_⟩
  · intro h0
    split
    · next hc =>
        refine iff_of_true ?_ hc
        simp
    · next hc =>
        refine iff_of_false ?_ hc
        simp [h0]
  · intro h1
    simp
    omega
  · simp
  · intro h1
    split
    · simp
      omega
    · exact h1

/-- Witness for C3: a perfect two-of-two score on a quiz with two
gradable elements and no prior panel renders the celebration. -/
theorem claimC3_witness :
    0 < (checkQuizCompletion { total := 2, correct := 2, answered := ["a", "b"] }
        { gradableCount := 2, celebrationCount := 0 }).celebrationCount :=
  ((claimC3_completion_celebration
      { total := 2, correct := 2, answered := ["a", "b"] }
      { gradableCount := 2, celebrationCount := 0 }).1 (by decide)).mpr (by decide)


/-- A natural power of a finite JavaScript number is the finite
rational power. -/
theorem JSNum.npow_finite (q : ℚ) : ∀ n : ℕ, (JSNum.finite q).npow n = JSNum.finite (q ^ n)
  | 0 => rfl
  | n + 1 => by
      rw [JSNum.npow, JSNum.npow_finite q n]
      simp [JSNum.mul, pow_succ, mul_comm]

/-- Claim C4: `calculateVaR(value, confidence, volatility)` computes
value × volatility × z with z = 1.28 at confidence 90, 1.645 at 95,
2.33 at 99 and 1.645 for any other confidence; the sign flag is false
for every input; `calculateVaR(10000, 95, 0.02)` has value 329 and an
unknown confidence of 42 uses the default z = 1.645. -/
theorem claimC4_calculateVaR (v c vol : ℚ) :
    (calculateVaR (JSNum.finite v) (JSNum.finite c) (JSNum.finite vol)).value =
      JSNum.finite (v * vol *
        (if c = 90 then 1.28 else if c = 95 then 1.645 else if c = 99 then 2.33 else 1.645)) ∧
    (∀ x y z : JSNum, (calculateVaR x y z).isPositive = false) ∧
    (calculateVaR (JSNum.finite 10000) (JSNum.finite 95) (JSNum.finite 0.02)).value =
      JSNum.finite 329 ∧
    (calculateVaR (JSNum.finite 10000) (JSNum.finite 42) (JSNum.finite 0.02)).value =
      JSNum.finite (10000 * 0.02 * 1.645) := by
  refine ⟨?_, fun x y z => rfl, by with_unfolding_all rfl, by with_unfolding_all rfl⟩
  have hz : varZScore (JSNum.finite c) =
      (if c = 90 then 1.28 else if c = 95 then 1.645 else if c = 99 then 2.33 else 1.645) := by
    simp [varZScore, JSNum.finite.injEq]
  simp [calculateVaR, JSNum.mul, hz]

/-- Claim C5: for a nonzero initial amount, `calculateROI` returns
(final - initial) / initial × 100 with the sign flag true exactly when
that percentage is nonnegative; ROI(100, 150) is 50 (positive) and
ROI(100, 50) is -50 (negative). -/
theorem claimC5_calculateROI (i f : ℚ) (h : i ≠ 0) :
    (calculateROI (JSNum.finite i) (JSNum.finite f)).value =
      JSNum.finite ((f - i) / i * 100) ∧
    ((calculateROI (JSNum.finite i) (JSNum.finite f)).isPositive = true ↔
      0 ≤ (f - i) / i * 100) ∧
    (calculateROI (JSNum.finite 100) (JSNum.finite 150)).value = JSNum.finite 50 ∧
    (calculateROI (JSNum.finite 100) (JSNum.finite 150)).isPositive = true ∧
    (calculateROI (JSNum.finite 100) (JSNum.finite 50)).value = JSNum.finite (-50) ∧
    (calculateROI (JSNum.finite 100) (JSNum.finite 50)).isPositive = false := by
  refine ⟨?_, ?_, by with_unfolding_all rfl, by with_unfolding_all rfl,
    by with_unfolding_all rfl, by with_unfolding_all rfl⟩
  · simp [calculateROI, JSNum.sub, JSNum.div, JSNum.mul, h]
  · simp [calculateROI, JSNum.sub, JSNum.div, JSNum.mul, JSNum.ge, JSNum.le, h]

/-- Witness for C5 at ROI(100, 150). -/
theorem claimC5_witness :
    (calculateROI (JSNum.finite 100) (JSNum.finite 150)).value = JSNum.finite 50 :=
  (claimC5_calculateROI 100 150 (by decide)).2.2.1

/-- Claim C6: `calculateCompoundGrowth(principal, rate, time)` returns
principal × (1 + rate/100)^time; the gain is that amount minus the
principal and the sign flag is true exactly when the gain is
nonnegative; at (1000, 10, 2) the final amount is 1210, the gain 210
and the flag true. -/
theorem claimC6_compound_growth (p r : ℚ) (t : ℕ) :
    (calculateCompoundGrowth (JSNum.finite p) (JSNum.finite r) t).value =
      JSNum.finite (p * (1 + r / 100) ^ t) ∧
    (calculateCompoundGrowth (JSNum.finite p) (JSNum.finite r) t).gain =
      formatCurrency (JSNum.finite (p * (1 + r / 100) ^ t - p)) ∧
    ((calculateCompoundGrowth (JSNum.finite p) (JSNum.finite r) t).isPositive = true ↔
      0 ≤ p * (1 + r / 100) ^ t - p) ∧
    (calculateCompoundGrowth (JSNum.finite 1000) (JSNum.finite 10) 2).value =
      JSNum.finite 1210 ∧
    (calculateCompoundGrowth (JSNum.finite 1000) (JSNum.finite 10) 2).gain = "$210.00" ∧
    (calculateCompoundGrowth (JSNum.finite 1000) (JSNum.finite 10) 2).isPositive = true := by
  refine ⟨?_, ?_, ?_, by with_unfolding_all rfl, by with_unfolding_all rfl,
    by with_unfolding_all rfl⟩
  · simp [calculateCompoundGrowth, JSNum.add, JSNum.div, JSNum.mul, JSNum.npow_finite]
  · simp [calculateCompoundGrowth, JSNum.add, JSNum.div, JSNum.mul, JSNum.sub,
      JSNum.npow_finite]
  · simp [calculateCompoundGrowth, JSNum.add, JSNum.div, JSNum.mul, JSNum.sub,
      JSNum.npow_finite, JSNum.ge, JSNum.le]

/-- Claim C9: `calculateROI(0, final)` divides by zero: the value is
+∞ for positive final, -∞ for negative final and NaN for final = 0; in
the NaN case the sign flag is false and the formatted string is the
placeholder "0.00%". -/
theorem claimC9_roi_div_zero (f : ℚ) :
    (calculateROI (JSNum.finite 0) (JSNum.finite f)).value =
      (if 0 < f then JSNum.posInf else if f < 0 then JSNum.negInf else JSNum.nan) ∧
    (calculateROI (JSNum.finite 0) (JSNum.finite 0)).value = JSNum.nan ∧
    (calculateROI (JSNum.finite 0) (JSNum.finite 0)).isPositive = false ∧
    (calculateROI (JSNum.finite 0) (JSNum.finite 0)).formatted = "0.00%" := by
  refine ⟨?_, by with_unfolding_all rfl, by with_unfolding_all rfl, by with_unfolding_all rfl⟩
  simp only [calculateROI, JSNum.sub, JSNum.div, JSNum.mul]
  split_ifs with h1 h2 <;> simp_all

/-- Claim C10: `calculateSharpeRatio(r, r, 0)` computes 0/0 = NaN; NaN
fails every band comparison, so the interpretation is the top
"Exceptional" band while the sign flag is false. -/
theorem claimC10_sharpe_nan (r : ℚ) :
    ((calculateSharpeRatio (JSNum.finite r) (JSNum.finite r) (JSNum.finite 0)).value).isNaN =
      true ∧
    (calculateSharpeRatio (JSNum.finite r) (JSNum.finite r) (JSNum.finite 0)).interpretation =
      "Exceptional - Outstanding risk-adjusted returns" ∧
    (calculateSharpeRatio (JSNum.finite r) (JSNum.finite r) (JSNum.finite 0)).isPositive =
      false := by
  simp [calculateSharpeRatio, JSNum.sub, JSNum.div, getSharpeInterpretation,
    JSNum.lt, JSNum.ge, JSNum.le, JSNum.isNaN]

/-- Claim C7: `validateNumericInput` applies its checks in the fixed
order not-a-number, negative disallowed, non-integer disallowed, below
minimum, above maximum, returning the failure of the first check that
fails, and on success returns the parsed number; "abc" fails as
not-a-number, "-5" with negatives disallowed fails as
negative-disallowed, "5.5" with decimals disallowed fails as
non-integer, and "5" with minimum 10 fails as below-minimum. -/
theorem claimC7_validateNumericInput :
    (∀ (options : ValidationOptions) (num : JSNum), num.isNaN = true →
      validateParsed num options = ValidationResult.invalid ValidationError.notANumber) ∧
    (∀ (options : ValidationOptions) (num : JSNum), num.isNaN = false →
      options.allowNegative = false → num.lt (JSNum.finite 0) = true →
      validateParsed num options = ValidationResult.invalid ValidationError.negativeNotAllowed) ∧
    (∀ (options : ValidationOptions) (num : JSNum), num.isNaN = false →
      ¬(options.allowNegative = false ∧ num.lt (JSNum.finite 0) = true) →
      options.allowDecimal = false → jsIsInteger num = false →
      validateParsed num options = ValidationResult.invalid ValidationError.notInteger) ∧
    (∀ (options : ValidationOptions) (num : JSNum), num.isNaN = false →
      ¬(options.allowNegative = false ∧ num.lt (JSNum.finite 0) = true) →
      ¬(options.allowDecimal = false ∧ jsIsInteger num = false) →
      num.lt options.min = true →
      validateParsed num options = ValidationResult.invalid (ValidationError.belowMin options.min)) ∧
    (∀ (options : ValidationOptions) (num : JSNum), num.isNaN = false →
      ¬(options.allowNegative = false ∧ num.lt (JSNum.finite 0) = true) →
      ¬(options.allowDecimal = false ∧ jsIsInteger num = false) →
      num.lt options.min = false → options.max.lt num = true →
      validateParsed num options = ValidationResult.invalid (ValidationError.aboveMax options.max)) ∧
    (∀ (options : ValidationOptions) (num : JSNum), num.isNaN = false →
      ¬(options.allowNegative = false ∧ num.lt (JSNum.finite 0) = true) →
      ¬(options.allowDecimal = false ∧ jsIsInteger num = false) →
      num.lt options.min = false → options.max.lt num = false →
      validateParsed num options = ValidationResult.valid num) ∧
    validateNumericInput "abc" defaultValidationOptions =
      ValidationResult.invalid ValidationError.notANumber ∧
    validateNumericInput "-5" { defaultValidationOptions with allowNegative := false } =
      ValidationResult.invalid ValidationError.negativeNotAllowed ∧
    validateNumericInput "5.5" { defaultValidationOptions with allowDecimal := false } =
      ValidationResult.invalid ValidationError.notInteger ∧
    validateNumericInput "5" { defaultValidationOptions with min := JSNum.finite 10 } =
      ValidationResult.invalid (ValidationError.belowMin (JSNum.finite 10)) := by
  refine ⟨?_, ?_, ?_, ?_, ?_, ?_, by with_unfolding_all rfl, by with_unfolding_all rfl,
    by with_unfolding_all rfl, by with_unfolding_all rfl⟩
  · intro options num h
    simp [validateParsed, h]
  · intro options num h1 h2 h3
    simp [validateParsed, h1, h2, h3]
  · intro options num h1 h2 h3 h4
    simp [validateParsed, h1, h2, h3, h4]
  · intro options num h1 h2 h3 h4
    simp [validateParsed, h1, h2, h3, h4]
  · intro options num h1 h2 h3 h4 h5
    simp [validateParsed, h1, h2, h3, h4, h5]
  · intro options num h1 h2 h3 h4 h5
    simp [validateParsed, h1, h2, h3, h4, h5]

/-- Witness for C7: the negative check precedes the decimal check — a
negative non-integer with both flags off fails as negative-disallowed,
not as non-integer. -/
theorem claimC7_witness :
    validateParsed (JSNum.finite (-(11 / 2)))
      { min := JSNum.negInf, max := JSNum.posInf,
        allowNegative := false, allowDecimal := false } =
      ValidationResult.invalid ValidationError.negativeNotAllowed :=
  claimC7_validateNumericInput.2.1 _ _ rfl rfl (by with_unfolding_all rfl)

/-- Auxiliary induction for C8: while every next invocation arrives
strictly before the pending timer's fire time, no timer fires during
the fold, and the final pending timer belongs to the last event. -/
theorem debounce_foldl_aux {α : Type} (wait : ℕ) :
    ∀ (events : List (ℕ × α)) (calls : List α) (p : ℕ × α),
      (∀ e, events.head? = some e → e.1 < p.1) →
      List.Chain' (fun x y => y.1 < x.1 + wait) events →
      events.foldl (debounceStep wait) (calls, some p) =
        (calls, some (debounceFinal wait p events)) := by
  intro events
  induction events with
  | nil => intro calls p _ _; rfl
  | cons e rest ih =>
      intro calls p hhead hchain
      have he : e.1 < p.1 := hhead e rfl
      have hstep : debounceStep wait (calls, some p) e = (calls, some (e.1 + wait, e.2)) := by
        simp only [debounceStep]
        rw [if_neg (by omega)]
      rw [List.foldl_cons, hstep]
      have hhead' : ∀ e', rest.head? = some e' → e'.1 < e.1 + wait := by
        intro e' h'
        cases rest with
        | nil => simp at h'
        | cons r rs =>
            have hr : e' = r := by simpa using h'.symm
            subst hr
            exact (List.chain'_cons.mp hchain).1
      rw [ih calls (e.1 + wait, e.2) hhead' hchain.tail]
      congr 1
      cases rest with
      | nil => simp [debounceFinal]
      | cons r rs =>
          simp only [debounceFinal, List.getLast?_cons_cons]
          cases hgl : (r :: rs).getLast? with
          | none => simp at hgl
          | some l => rfl

/-- Claim C8: invoking a debounced function any number of times, each
invocation arriving strictly before the previous one's quiet period of
`wait` milliseconds elapses, produces exactly one underlying call,
carrying the arguments of the last invocation. -/
theorem claimC8_debounce {α : Type} (wait : ℕ) (events : List (ℕ × α)) (tl : ℕ) (al : α)
    (hlast : events.getLast? = some (tl, al))
    (hchain : List.Chain' (fun x y => y.1 < x.1 + wait) events) :
    debounceRun wait events = [al] := by
  cases events with
  | nil => simp at hlast
  | cons e rest =>
      cases rest with
      | nil =>
          have he : e = (tl, al) := by simpa using hlast
          subst he
          rfl
      | cons r rs =>
          unfold debounceRun
          rw [List.foldl_cons]
          have h1 : debounceStep wait ([], none) e = ([], some (e.1 + wait, e.2)) := rfl
          rw [h1]
          have hhead : ∀ e', (r :: rs).head? = some e' → e'.1 < e.1 + wait := by
            intro e' h'
            have hr : e' = r := by simpa using h'.symm
            subst hr
            exact (List.chain'_cons.mp hchain).1
          rw [debounce_foldl_aux wait (r :: rs) [] (e.1 + wait, e.2) hhead hchain.tail]
          have hl : (r :: rs).getLast? = some (tl, al) := by
            rw [List.getLast?_cons_cons] at hlast
            exact hlast
          simp [debounceFinal, hl]

/-- Witness for C8: three invocations at 0, 100 and 250 ms with a
300 ms quiet period collapse into one underlying call with the last
arguments. -/
theorem claimC8_witness :
    debounceRun 300 [(0, 1), (100, 2), (250, 3)] = [3] :=
  claimC8_debounce 300 [(0, 1), (100, 2), (250, 3)] 250 3 rfl
    (by norm_num [List.chain'_cons])
